import Mathlib

/-!
Verification of the Akamai platform adapter
(`internal/app/machined/pkg/runtime/v1alpha1/platform/akamai/akamai.go`).

The development shallowly embeds the two non-trivial pieces of the adapter:

* the identity-override reconciliation (`ensureValidUUID` together with its
  helpers `isInvalidUUID` and `generateLinodeUUID`), modelled against a
  resource store holding the UUID-override meta key and the system-information
  record, with explicit fault injection for the store operations so that the
  error-handling paths of the Go code are all reachable; and

* the metadata-to-network-config translation (`ParseMetadata`), modelled as a
  pure function parametrised by the external parsing and normalisation
  routines it calls (`netip.ParseAddr`, `HostnameSpecSpec.ParseFQDN`,
  `RouteSpecSpec.Normalize`), which are not part of the translated source.
-/

/-! ## Decimal formatting (embedding of Go `fmt.Sprintf("%d", _)` / `%012d`) -/

/-- One decimal digit rendered as a character, `0 ↦ '0'`, …, `9 ↦ '9'`. -/
def decDigitChar (d : Nat) : Char := Char.ofNat (48 + d)

/-- Little-endian decimal digits of `n`, by repeated division by 10, with
explicit fuel so the recursion is structural.  `decDigitsLE n n` computes all
digits of `n` (for `n > 0`). -/
def decDigitsLE : Nat → Nat → List Nat
  | 0, _ => []
  | _ + 1, 0 => []
  | fuel + 1, n + 1 => ((n + 1) % 10) :: decDigitsLE fuel ((n + 1) / 10)

/-- Decimal rendering of a natural number, as Go `fmt` renders a non-negative
integer with verb `%d`. -/
def natDecString (n : Nat) : String :=
  if n = 0 then "0" else String.mk (((decDigitsLE n n).reverse).map decDigitChar)

/-- Left-pad a string with `'0'` up to width `w`, as Go zero-padding does for
a non-negative integer (strings already at least `w` long are unchanged). -/
def padZeroLeft (w : Nat) (s : String) : String :=
  String.mk (List.replicate (w - s.length) '0' ++ s.data)

/-- Decimal rendering of an integer, as Go `strconv.Itoa` / `fmt` verb `%d`
render an `int`. -/
def intDecString (i : Int) : String :=
  if i < 0 then "-" ++ natDecString i.natAbs else natDecString i.toNat

/-- Embedding of Go `fmt.Sprintf("%012d", id)` for an `int` argument: the
decimal rendering, zero-padded to a minimum width of 12; for a negative
argument the sign occupies one column of the width. -/
def sprintf012d (id : Int) : String :=
  if id < 0 then "-" ++ padZeroLeft 11 (natDecString id.natAbs)
  else padZeroLeft 12 (natDecString id.toNat)

/-! ## UUID helpers (`generateLinodeUUID`, `isInvalidUUID`) -/

/-- `generateLinodeUUID` creates a UUID from a Linode instance ID:
`00000000-0000-0000-0000-` followed by the ID padded to 12 digits
with leading zeros. -/
def generateLinodeUUID (linodeID : Int) : String :=
  "00000000-0000-0000-0000-" ++ sprintf012d linodeID

/-- `isInvalidUUID` checks if a UUID is invalid (empty or all-zeros); any
other string is accepted. -/
def isInvalidUUID (uuid : String) : Bool :=
  if uuid = "" then true
  else if uuid = "00000000-0000-0000-0000-000000000000" then true
  else false

/-! ## The resource store consumed by `ensureValidUUID`

The Go function reads two records (the UUID-override meta key and the
system-information record) and performs at most one `Create`.  The store
contents are the two records' values (`none`: record absent).  Real store
operations can also fail with transport or backend errors that are neither
"not found" nor "conflict"; `CosiFaults` injects such an error into each of
the three operations so every error branch of the Go code is reachable. -/

/-- Errors returned by the store, as the Go code distinguishes them
(`state.IsNotFoundError`, `state.IsConflictError`, anything else). -/
inductive CosiError where
  | notFound
  | conflict
  | other (msg : String)
deriving DecidableEq

/-- `state.IsNotFoundError`. -/
def CosiError.isNotFound : CosiError → Bool
  | .notFound => true
  | _ => false

/-- `state.IsConflictError`. -/
def CosiError.isConflict : CosiError → Bool
  | .conflict => true
  | _ => false

/-- The message carried by an error (used when the Go code wraps it). -/
def CosiError.text : CosiError → String
  | .notFound => "not found"
  | .conflict => "conflict"
  | .other msg => msg

/-- Contents of the resource store: the UUID-override meta key's value and the
system-information record's UUID field, each `none` when the record is
absent. -/
structure CosiStore where
  uuidOverride : Option String
  systemInfoUUID : Option String
deriving DecidableEq

/-- Injected faults: when a field is `some msg`, the corresponding store
operation fails with the non-not-found, non-conflict error `msg`. -/
structure CosiFaults where
  overrideRead : Option String
  sysInfoRead : Option String
  create : Option String
deriving DecidableEq

/-- A fault-free store environment. -/
def noFaults : CosiFaults := ⟨none, none, none⟩

/-- `safe.ReaderGetByID` of the UUID-override meta key: the record's value if
present, a not-found error if absent, or the injected fault. -/
def readOverride (f : CosiFaults) (s : CosiStore) : Except CosiError String :=
  match f.overrideRead with
  | some msg => .error (.other msg)
  | none =>
    match s.uuidOverride with
    | some v => .ok v
    | none => .error .notFound

/-- `safe.ReaderGetByID` of the system-information record: its UUID field if
present, a not-found error if absent, or the injected fault. -/
def readSystemInfo (f : CosiFaults) (s : CosiStore) : Except CosiError String :=
  match f.sysInfoRead with
  | some msg => .error (.other msg)
  | none =>
    match s.systemInfoUUID with
    | some v => .ok v
    | none => .error .notFound

/-- `r.Create` of the UUID-override meta key with value `v`: insert-if-absent,
failing with a conflict when the record already exists, or with the injected
fault. -/
def createUUIDOverride (f : CosiFaults) (s : CosiStore) (v : String) :
    Except CosiError CosiStore :=
  match f.create with
  | some msg => .error (.other msg)
  | none =>
    match s.uuidOverride with
    | some _ => .error .conflict
    | none => .ok { s with uuidOverride := some v }

/-- Outcome of a call to `ensureValidUUID`: the Go return value, the store
left behind, and the values passed to `Create`, in order (the Go code issues
no other mutating operation). -/
structure EnsureResult where
  result : Except String Unit
  store : CosiStore
  createAttempts : List String

/-- The wrapped error built by `ensureValidUUID` when `Create` fails with a
non-conflict error (Go `fmt.Errorf("failed to create UUID override for
invalid SMBIOS UUID %q: %w", currentUUID, err)`). -/
def wrapCreateErr (currentUUID msg : String) : String :=
  "failed to create UUID override for invalid SMBIOS UUID \"" ++ currentUUID
    ++ "\": " ++ msg

/-- The tail of `ensureValidUUID` after `shouldOverride` and `currentUUID`
have been computed: create the override when `shouldOverride && linodeID > 0`,
swallowing a conflict and wrapping any other creation error. -/
def ensureCreateStep (f : CosiFaults) (s : CosiStore) (linodeID : Int)
    (shouldOverride : Bool) (currentUUID : String) : EnsureResult :=
  if shouldOverride ∧ linodeID > 0 then
    let generatedUUID := generateLinodeUUID linodeID
    match createUUIDOverride f s generatedUUID with
    | .ok s2 => ⟨.ok (), s2, [generatedUUID]⟩
    | .error e =>
      if e.isConflict then ⟨.ok (), s, [generatedUUID]⟩
      else ⟨.error (wrapCreateErr currentUUID e.text), s, [generatedUUID]⟩
  else ⟨.ok (), s, []⟩

/-- The part of `ensureValidUUID` from the system-information read on: a
not-found read means the record is not available yet (override as a
precaution, `currentUUID = "not-available-yet"`); any other read error is
wrapped and returned; on success the UUID's validity decides the override. -/
def ensureSystemInfoStep (f : CosiFaults) (s : CosiStore) (linodeID : Int) :
    EnsureResult :=
  match readSystemInfo f s with
  | .error e =>
    if e.isNotFound then ensureCreateStep f s linodeID true "not-available-yet"
    else ⟨.error ("failed to get system information: " ++ e.text), s, []⟩
  | .ok currentUUID =>
    ensureCreateStep f s linodeID (isInvalidUUID currentUUID) currentUUID

/-- `ensureValidUUID` checks if the SMBIOS UUID is valid and sets an override
if needed.  It first reads the UUID-override meta key: when that read
succeeds and the value is non-empty the override already exists and nothing
is modified; on any read error (not-found or otherwise) the code falls
through to the system-information check. -/
def ensureValidUUID (f : CosiFaults) (s : CosiStore) (linodeID : Int) :
    EnsureResult :=
  match readOverride f s with
  | .ok v =>
    if v ≠ "" then ⟨.ok (), s, []⟩
    else ensureSystemInfoStep f s linodeID
  | .error _ => ensureSystemInfoStep f s linodeID

/-- The `currentUUID` value `ensureValidUUID` observes on the paths that reach
the creation step: the system-information UUID when its read succeeds,
`"not-available-yet"` when the record was not found. -/
def observedUUID (f : CosiFaults) (s : CosiStore) : String :=
  match readSystemInfo f s with
  | .ok u => u
  | .error _ => "not-available-yet"

/-! ## Metadata translation (`ParseMetadata`)

The Go input types come from the `go-metadata` client: `InstanceData` (label,
region, type, numeric ID) and `NetworkData` (public and private IPv4
prefixes, IPv6 range prefixes, and the IPv6 link-local prefix).  A network
prefix is modelled by the textual form of its address part together with its
prefix length (`netip.Prefix.Addr().String()` and `Bits()`); `Cidr.goString`
is `netip.Prefix.String()`, which joins the two with `/`.

`ParseMetadata` calls three routines whose bodies are outside the translated
source and are therefore taken as parameters: `parseFQDN` for
`HostnameSpecSpec.ParseFQDN` (`none` models a parse error), `parseAddr` for
`netip.ParseAddr` (`none` models a parse error; the result is the parsed
address), and `normalizeRoute` for `RouteSpecSpec.Normalize` (modelled from
the spec: the store's route-normalisation step, applied to the route before
it is appended; its body is not in scope). -/

/-- A network prefix: textual address part plus prefix length. -/
structure Cidr where
  addr : String
  bits : Nat
deriving DecidableEq

/-- `netip.Prefix.String()`: address, `/`, decimal prefix length. -/
def Cidr.goString (p : Cidr) : String := p.addr ++ "/" ++ natDecString p.bits

/-- `strings.Split(s, ":")[0]`: the characters of `s` before its first colon
(all of `s` when it has no colon). -/
def goSplitFirstColon (s : String) : String :=
  String.mk (s.data.takeWhile (fun c => c != ':'))

/-- Instance metadata consumed by the translation (`akametadata.InstanceData`
fields used by `ParseMetadata`). -/
structure InstanceData where
  label : String
  region : String
  instanceType : String
  id : Int
deriving DecidableEq

/-- Network metadata consumed by the translation
(`akametadata.NetworkData`). -/
structure NetworkData where
  ipv4Public : List Cidr
  ipv4Private : List Cidr
  ipv6Ranges : List Cidr
  ipv6LinkLocal : Cidr
deriving DecidableEq

/-- `network.ConfigPlatform` is the only configuration layer this code
uses. -/
inductive ConfigLayer where
  | platform
deriving DecidableEq

/-- Address scopes used by the translation (`nethelpers.Scope`). -/
inductive AddrScope where
  | global
  | link
deriving DecidableEq

/-- Address flags used by the translation (`nethelpers.AddressFlags`). -/
inductive AddrFlag where
  | permanent
  | managementTemp
deriving DecidableEq

/-- Address families (`nethelpers.Family`). -/
inductive AddrFamily where
  | inet4
  | inet6
deriving DecidableEq

/-- Routing tables used by the translation (`nethelpers.RoutingTable`). -/
inductive RoutingTable where
  | main
deriving DecidableEq

/-- Routing protocols used by the translation (`nethelpers.RouteProtocol`). -/
inductive RouteProtocol where
  | static
deriving DecidableEq

/-- Route types used by the translation (`nethelpers.RouteType`). -/
inductive RouteKind where
  | unicast
deriving DecidableEq

/-- `network.HostnameSpecSpec` as far as the translation observes it: the
configuration layer it sets, plus the fields `ParseFQDN` fills in. -/
structure HostnameSpecSpec where
  configLayer : ConfigLayer
  hostname : String
  domainname : String
deriving DecidableEq

/-- `network.AddressSpecSpec` fields set by the translation. -/
structure AddressSpecSpec where
  configLayer : ConfigLayer
  linkName : String
  address : Cidr
  scope : AddrScope
  flags : List AddrFlag
  family : AddrFamily
deriving DecidableEq

/-- `network.RouteSpecSpec` fields set by the translation.  The gateway is
the address returned by `netip.ParseAddr`. -/
structure RouteSpecSpec where
  configLayer : ConfigLayer
  gateway : String
  outLinkName : String
  destination : Cidr
  table : RoutingTable
  protocol : RouteProtocol
  kind : RouteKind
  family : AddrFamily
  priority : Nat
deriving DecidableEq

/-- `runtimeres.PlatformMetadataSpec` fields set by the translation. -/
structure PlatformMetadataSpec where
  platform : String
  hostname : String
  region : String
  instanceType : String
  instanceID : String
  providerID : String
deriving DecidableEq

/-- `runtime.PlatformNetworkConfig` fields set by the translation. -/
structure PlatformNetworkConfig where
  hostnames : List HostnameSpecSpec
  addresses : List AddressSpecSpec
  routes : List RouteSpecSpec
  externalIPs : List String
  metadata : Option PlatformMetadataSpec
deriving DecidableEq

/-- `ParseMetadata` converts Akamai platform metadata into platform network
config, following the Go function line by line: hostname (fatal on a
malformed label), one address entry per public IPv4, private IPv4 and IPv6
range prefix and one for the link-local prefix, the derived IPv6 default
route (fatal when the derived gateway fails to parse, normalised before it
is appended), the re-parsed external IP list, and the metadata summary. -/
def ParseMetadata (parseFQDN : String → Option HostnameSpecSpec)
    (parseAddr : String → Option String)
    (normalizeRoute : RouteSpecSpec → RouteSpecSpec)
    (metadata : InstanceData) (ifaces : NetworkData) :
    Except String PlatformNetworkConfig :=
  let hostnameStep : Except String (List HostnameSpecSpec) :=
    if metadata.label ≠ "" then
      match parseFQDN metadata.label with
      | none => .error "parse FQDN"
      | some h => .ok [{ h with configLayer := .platform }]
    else .ok []
  match hostnameStep with
  | .error e => .error e
  | .ok hostnames =>
    let publicIPs : List String :=
      ifaces.ipv4Public.map (fun iface => iface.addr)
        ++ ifaces.ipv6Ranges.map (fun iface => iface.addr)
    let addresses : List AddressSpecSpec :=
      ifaces.ipv4Public.map (fun iface =>
        { configLayer := .platform, linkName := "eth0", address := iface,
          scope := .global, flags := [.permanent], family := .inet4 })
      ++ ifaces.ipv4Private.map (fun iface =>
        { configLayer := .platform, linkName := "eth0", address := iface,
          scope := .global, flags := [.permanent], family := .inet4 })
      ++ ifaces.ipv6Ranges.map (fun iface =>
        { configLayer := .platform, linkName := "eth0", address := iface,
          scope := .global, flags := [.managementTemp], family := .inet6 })
      ++ [{ configLayer := .platform, linkName := "eth0",
            address := ifaces.ipv6LinkLocal, scope := .link, flags := [],
            family := .inet6 }]
    let gwString : String :=
      goSplitFirstColon ifaces.ipv6LinkLocal.goString ++ "::1"
    match parseAddr gwString with
    | none => .error ("ParseAddr: " ++ gwString)
    | some ipv6gw =>
      let route : RouteSpecSpec :=
        { configLayer := .platform, gateway := ipv6gw, outLinkName := "eth0",
          destination := ifaces.ipv6LinkLocal, table := .main,
          protocol := .static, kind := .unicast, family := .inet6,
          priority := 1024 }
      .ok
        { hostnames := hostnames
          addresses := addresses
          routes := [normalizeRoute route]
          externalIPs := publicIPs.filterMap parseAddr
          metadata := some
            { platform := "akamai", hostname := metadata.label,
              region := metadata.region, instanceType := metadata.instanceType,
              instanceID := intDecString metadata.id,
              providerID := "linode://" ++ intDecString metadata.id } }

/-! ## Concrete instances used to exercise the definitions -/

/-- A concrete stand-in for `HostnameSpecSpec.ParseFQDN`: accepts exactly the
label `talos-host`. -/
def mockParseFQDN (s : String) : Option HostnameSpecSpec :=
  if s = "talos-host" then
    some { configLayer := .platform, hostname := "talos-host", domainname := "" }
  else none

/-- A concrete stand-in for `netip.ParseAddr`: accepts three fixed addresses
and rejects everything else. -/
def mockParseAddr (s : String) : Option String :=
  if s = "fe80::1" then some "fe80::1"
  else if s = "172.16.1.1" then some "172.16.1.1"
  else if s = "2001:db8::1" then some "2001:db8::1"
  else none

/-- A concrete stand-in for `RouteSpecSpec.Normalize` whose effect is visible
in the output. -/
def mockNormalizeRoute (r : RouteSpecSpec) : RouteSpecSpec :=
  { r with priority := r.priority + 1 }

/-- A concrete instance-metadata value. -/
def mockInstance : InstanceData :=
  { label := "", region := "us-east", instanceType := "g6-standard-2",
    id := 79475478 }

/-- A concrete network-metadata value; the second public IPv4 address fails
to re-parse under `mockParseAddr`. -/
def mockNetwork : NetworkData :=
  { ipv4Public := [{ addr := "172.16.1.1", bits := 24 },
                   { addr := "bogus", bits := 24 }],
    ipv4Private := [{ addr := "192.168.1.5", bits := 24 }],
    ipv6Ranges := [{ addr := "2001:db8::1", bits := 64 }],
    ipv6LinkLocal := { addr := "fe80::1", bits := 64 } }

/-! ## Helper lemmas -/

/-- With enough fuel, a number below `10 ^ b` has at most `b` decimal
digits. -/
theorem decDigitsLE_length_le (fuel : Nat) :
    ∀ n b : Nat, n ≤ fuel → n < 10 ^ b → (decDigitsLE fuel n).length ≤ b := by
  induction fuel with
  | zero => intro n b _ _; simp [decDigitsLE]
  | succ fuel ih =>
    intro n b hfuel hb
    match n with
    | 0 => simp [decDigitsLE]
    | k + 1 =>
      obtain ⟨b2, rfl⟩ : ∃ b2, b = b2 + 1 := by
        rcases b with _ | b2
        · simp at hb
        · exact ⟨b2, rfl⟩
      have hdiv_le : (k + 1) / 10 ≤ fuel := by
        have := Nat.div_lt_self (Nat.succ_pos k) (by norm_num : 1 < 10)
        omega
      have hdiv_lt : (k + 1) / 10 < 10 ^ b2 := by
        rw [Nat.div_lt_iff_lt_mul (by norm_num : (0:Nat) < 10)]
        calc k + 1 < 10 ^ (b2 + 1) := hb
          _ = 10 ^ b2 * 10 := by ring
      have hrec := ih ((k + 1) / 10) b2 hdiv_le hdiv_lt
      simp only [decDigitsLE, List.length_cons]
      omega

/-- The decimal rendering of `n < 10 ^ b` (for `b > 0`) has at most `b`
characters. -/
theorem natDecString_length_le (n b : Nat) (h : n < 10 ^ b) (hb : 0 < b) :
    (natDecString n).length ≤ b := by
  unfold natDecString
  split
  · calc ("0").length = 1 := rfl
      _ ≤ b := hb
  · have hlen := decDigitsLE_length_le n n b le_rfl h
    simpa using hlen

/-- Zero-padding a string no longer than `w` yields length exactly `w`. -/
theorem padZeroLeft_length (w : Nat) (s : String) (h : s.length ≤ w) :
    (padZeroLeft w s).length = w := by
  cases s with
  | mk data =>
    simp only [padZeroLeft, String.length_mk, List.length_append,
      List.length_replicate]
    simp only [String.length_mk] at h
    omega

/-- The creation step never touches the system-information record, and can
change the override record only from absent to the generated UUID; it issues
at most one `Create`. -/
theorem ensureCreateStep_frame (f : CosiFaults) (s : CosiStore) (linodeID : Int)
    (so : Bool) (cu : String) :
    (ensureCreateStep f s linodeID so cu).store.systemInfoUUID = s.systemInfoUUID ∧
    ((ensureCreateStep f s linodeID so cu).store.uuidOverride = s.uuidOverride ∨
      (s.uuidOverride = none ∧
        (ensureCreateStep f s linodeID so cu).store.uuidOverride
          = some (generateLinodeUUID linodeID))) ∧
    (ensureCreateStep f s linodeID so cu).createAttempts.length ≤ 1 := by
  cases so with
  | false => simp [ensureCreateStep]
  | true =>
    by_cases hid : linodeID > 0
    · cases hc : f.create with
      | some m =>
        simp [ensureCreateStep, createUUIDOverride, hc, hid, CosiError.isConflict]
      | none =>
        cases hov : s.uuidOverride with
        | some w =>
          simp [ensureCreateStep, createUUIDOverride, hc, hov, hid,
            CosiError.isConflict]
        | none =>
          simp [ensureCreateStep, createUUIDOverride, hc, hov, hid]
    · simp [ensureCreateStep, hid]

/-- The system-information step inherits the frame property of the creation
step. -/
theorem ensureSystemInfoStep_frame (f : CosiFaults) (s : CosiStore)
    (linodeID : Int) :
    (ensureSystemInfoStep f s linodeID).store.systemInfoUUID = s.systemInfoUUID ∧
    ((ensureSystemInfoStep f s linodeID).store.uuidOverride = s.uuidOverride ∨
      (s.uuidOverride = none ∧
        (ensureSystemInfoStep f s linodeID).store.uuidOverride
          = some (generateLinodeUUID linodeID))) ∧
    (ensureSystemInfoStep f s linodeID).createAttempts.length ≤ 1 := by
  unfold ensureSystemInfoStep
  cases hr : readSystemInfo f s with
  | ok u => exact ensureCreateStep_frame f s linodeID (isInvalidUUID u) u
  | error e =>
    cases he : e.isNotFound
    · simp [he]
    · simpa [he] using ensureCreateStep_frame f s linodeID true "not-available-yet"

/-- C1 (confirmed).  Write-once / non-clobber: when the UUID-override record
exists with a non-empty value (and its read is not disturbed by an injected
fault), `ensureValidUUID` succeeds for every `linodeID` and every
system-information state, attempts no write, and the store — in particular
the stored override value — is unchanged. -/
theorem ensureValidUUID_nonclobber (f : CosiFaults) (s : CosiStore)
    (linodeID : Int) (v : String) (hov : s.uuidOverride = some v)
    (hne : v ≠ "") (hfr : f.overrideRead = none) :
    (ensureValidUUID f s linodeID).result = .ok () ∧
    (ensureValidUUID f s linodeID).store = s ∧
    (ensureValidUUID f s linodeID).createAttempts = [] := by
  simp [ensureValidUUID, readOverride, hfr, hov, hne]

/-- Witness for C1: a store holding the override `existing-uuid` is untouched
by a call with a different valid `linodeID` and an all-zero hardware UUID. -/
theorem ensureValidUUID_nonclobber_witness :
    (ensureValidUUID noFaults
        ⟨some "existing-uuid", some "00000000-0000-0000-0000-000000000000"⟩
        79475478).result = .ok () ∧
    (ensureValidUUID noFaults
        ⟨some "existing-uuid", some "00000000-0000-0000-0000-000000000000"⟩
        79475478).store
      = ⟨some "existing-uuid", some "00000000-0000-0000-0000-000000000000"⟩ ∧
    (ensureValidUUID noFaults
        ⟨some "existing-uuid", some "00000000-0000-0000-0000-000000000000"⟩
        79475478).createAttempts = [] :=
  ensureValidUUID_nonclobber noFaults
    ⟨some "existing-uuid", some "00000000-0000-0000-0000-000000000000"⟩
    79475478 "existing-uuid" rfl (by decide) rfl

/-- C5 (confirmed).  Non-positive ID guard: for every store state and every
`linodeID ≤ 0`, provided no fault is injected into the system-information
read, `ensureValidUUID` attempts no create, returns success, and leaves the
store unchanged. -/
theorem ensureValidUUID_nonpositive_id_guard (f : CosiFaults) (s : CosiStore)
    (linodeID : Int) (hid : linodeID ≤ 0) (hsf : f.sysInfoRead = none) :
    (ensureValidUUID f s linodeID).result = .ok () ∧
    (ensureValidUUID f s linodeID).store = s ∧
    (ensureValidUUID f s linodeID).createAttempts = [] := by
  have hcs : ∀ so cu, ensureCreateStep f s linodeID so cu = ⟨.ok (), s, []⟩ := by
    intro so cu
    unfold ensureCreateStep
    rw [if_neg]
    rintro ⟨-, hpos⟩
    omega
  have hstep : ensureSystemInfoStep f s linodeID = ⟨.ok (), s, []⟩ := by
    unfold ensureSystemInfoStep readSystemInfo
    rw [hsf]
    cases hsi : s.systemInfoUUID <;> simp [hcs, CosiError.isNotFound]
  unfold ensureValidUUID readOverride
  cases hfr : f.overrideRead with
  | some m => simp [hstep]
  | none =>
    cases hov : s.uuidOverride with
    | none => simp [hstep]
    | some v =>
      by_cases hv : v = ""
      · simp [hv, hstep]
      · simp [hv, hstep]

/-- Witness for C5: `linodeID = 0` with an empty (invalid) hardware UUID
creates nothing and succeeds. -/
theorem ensureValidUUID_nonpositive_id_guard_witness :
    (ensureValidUUID noFaults ⟨none, some ""⟩ 0).result = .ok () ∧
    (ensureValidUUID noFaults ⟨none, some ""⟩ 0).store = ⟨none, some ""⟩ ∧
    (ensureValidUUID noFaults ⟨none, some ""⟩ 0).createAttempts = [] :=
  ensureValidUUID_nonpositive_id_guard noFaults ⟨none, some ""⟩ 0
    (by decide) rfl

/-- C7 (confirmed).  `isInvalidUUID` returns `true` exactly for the empty
string and the all-zero UUID; every other string is accepted as valid. -/
theorem isInvalidUUID_spec (s : String) :
    isInvalidUUID s = true ↔
      (s = "" ∨ s = "00000000-0000-0000-0000-000000000000") := by
  unfold isInvalidUUID
  split
  · simp [*]
  · split <;> simp [*]

/-- C10 (confirmed).  Frame property: on every path, `ensureValidUUID` leaves
the system-information record unchanged, leaves the override record unchanged
unless it was absent and is created with the generated UUID, and issues at
most one create (the model offers no update or delete operation, mirroring
the Go code, whose only mutation is `r.Create` of the override key). -/
theorem ensureValidUUID_frame (f : CosiFaults) (s : CosiStore)
    (linodeID : Int) :
    (ensureValidUUID f s linodeID).store.systemInfoUUID = s.systemInfoUUID ∧
    ((ensureValidUUID f s linodeID).store.uuidOverride = s.uuidOverride ∨
      (s.uuidOverride = none ∧
        (ensureValidUUID f s linodeID).store.uuidOverride
          = some (generateLinodeUUID linodeID))) ∧
    (ensureValidUUID f s linodeID).createAttempts.length ≤ 1 := by
  unfold ensureValidUUID
  cases hr : readOverride f s with
  | error e => exact ensureSystemInfoStep_frame f s linodeID
  | ok v =>
    by_cases hv : v = ""
    · simpa [hv] using ensureSystemInfoStep_frame f s linodeID
    · simp [hv]

/-- C6 (confirmed).  Synthetic UUID format: for `0 ≤ id < 10^12`,
`generateLinodeUUID id` is the fixed prefix `00000000-0000-0000-0000-`
followed by the decimal `id` zero-padded to 12 digits; the result has length
36, dashes at offsets 8, 13, 18 and 23, and its final 12 characters are
exactly the zero-padded decimal rendering. -/
theorem generateLinodeUUID_format (id : Int) (h0 : 0 ≤ id)
    (h1 : id < 10 ^ 12) :
    generateLinodeUUID id
        = "00000000-0000-0000-0000-" ++ padZeroLeft 12 (natDecString id.toNat) ∧
    (generateLinodeUUID id).length = 36 ∧
    ((generateLinodeUUID id).data[8]? = some '-' ∧
      (generateLinodeUUID id).data[13]? = some '-' ∧
      (generateLinodeUUID id).data[18]? = some '-' ∧
      (generateLinodeUUID id).data[23]? = some '-') ∧
    (generateLinodeUUID id).data.drop 24
        = (padZeroLeft 12 (natDecString id.toNat)).data ∧
    (padZeroLeft 12 (natDecString id.toNat)).length = 12 := by
  have htoNat : id.toNat < 10 ^ 12 := by omega
  have hpad : (padZeroLeft 12 (natDecString id.toNat)).length = 12 :=
    padZeroLeft_length 12 _ (natDecString_length_le _ 12 htoNat (by norm_num))
  have hdef : generateLinodeUUID id
      = "00000000-0000-0000-0000-" ++ padZeroLeft 12 (natDecString id.toNat) := by
    unfold generateLinodeUUID sprintf012d
    rw [if_neg (by omega)]
  refine ⟨hdef, ?_, ?_, ?_, hpad⟩
  · rw [hdef, String.length_append, hpad]
    decide
  · rw [hdef, String.data_append]
    refine ⟨?_, ?_, ?_, ?_⟩ <;>
      · rw [List.getElem?_append_left (by decide)]
        decide
  · rw [hdef, String.data_append]
    exact List.drop_left' (by decide)

/-- Witness for C6: the format theorem applied at the Linode instance ID
79475478 from the repository's tests. -/
theorem generateLinodeUUID_format_witness :
    generateLinodeUUID 79475478
        = "00000000-0000-0000-0000-"
            ++ padZeroLeft 12 (natDecString (Int.toNat 79475478)) ∧
    (generateLinodeUUID 79475478).length = 36 ∧
    ((generateLinodeUUID 79475478).data[8]? = some '-' ∧
      (generateLinodeUUID 79475478).data[13]? = some '-' ∧
      (generateLinodeUUID 79475478).data[18]? = some '-' ∧
      (generateLinodeUUID 79475478).data[23]? = some '-') ∧
    (generateLinodeUUID 79475478).data.drop 24
        = (padZeroLeft 12 (natDecString (Int.toNat 79475478))).data ∧
    (padZeroLeft 12 (natDecString (Int.toNat 79475478))).length = 12 :=
  generateLinodeUUID_format 79475478 (by decide) (by decide)

/-- C3 (corrected) counterexample: the first read of `ensureValidUUID` (the
override-record read) fails with an error that is not "not found", yet the
call returns success — and attempts nothing — instead of propagating the
wrapped error as the claim requires. -/
theorem ensureValidUUID_overrideRead_error_swallowed :
    readOverride ⟨some "io error", none, none⟩
        ⟨none, some "550e8400-e29b-41d4-a716-446655440000"⟩
      = .error (.other "io error") ∧
    (CosiError.other "io error").isNotFound = false ∧
    (ensureValidUUID ⟨some "io error", none, none⟩
        ⟨none, some "550e8400-e29b-41d4-a716-446655440000"⟩ 5).result
      = .ok () ∧
    (ensureValidUUID ⟨some "io error", none, none⟩
        ⟨none, some "550e8400-e29b-41d4-a716-446655440000"⟩ 5).createAttempts
      = [] :=
  ⟨rfl, rfl, rfl, rfl⟩

/-- C3 (corrected, amended).  "Not found" is benign on both reads (with all
three operations fault-free the call always succeeds), and a non-not-found
error on the **system-information** read propagates wrapped; but an error on
the override-record read — of any kind — is swallowed: the code merely falls
through to the rest of the function. -/
theorem ensureValidUUID_read_error_propagation (f : CosiFaults)
    (s : CosiStore) (linodeID : Int) :
    (f.overrideRead = none → f.sysInfoRead = none → f.create = none →
      (ensureValidUUID f s linodeID).result = .ok ()) ∧
    (∀ m : String, f.sysInfoRead = some m →
      (f.overrideRead ≠ none ∨ s.uuidOverride = none ∨ s.uuidOverride = some "") →
      (ensureValidUUID f s linodeID).result
        = .error ("failed to get system information: " ++ m)) := by
  constructor
  · intro h1 h2 h3
    have hcs : ∀ (so : Bool) (cu : String),
        (ensureCreateStep f s linodeID so cu).result = .ok () := by
      intro so cu
      cases so with
      | false => simp [ensureCreateStep]
      | true =>
        by_cases hid : linodeID > 0
        · cases hov : s.uuidOverride with
          | some w =>
            simp [ensureCreateStep, createUUIDOverride, h3, hov, hid,
              CosiError.isConflict]
          | none => simp [ensureCreateStep, createUUIDOverride, h3, hov, hid]
        · simp [ensureCreateStep, hid]
    have hss : (ensureSystemInfoStep f s linodeID).result = .ok () := by
      unfold ensureSystemInfoStep readSystemInfo
      rw [h2]
      cases s.systemInfoUUID <;> simp [hcs, CosiError.isNotFound]
    unfold ensureValidUUID readOverride
    rw [h1]
    cases s.uuidOverride with
    | none => simpa using hss
    | some v =>
      by_cases hv : v = "" <;> simp [hv, hss]
  · intro m hm hcase
    have hss : (ensureSystemInfoStep f s linodeID).result
        = .error ("failed to get system information: " ++ m) := by
      unfold ensureSystemInfoStep readSystemInfo
      rw [hm]
      simp [CosiError.isNotFound, CosiError.text]
    unfold ensureValidUUID readOverride
    cases hfo : f.overrideRead with
    | some x => simpa using hss
    | none =>
      rcases hcase with h | h | h
      · exact absurd hfo h
      · rw [h]; simpa using hss
      · rw [h]; simpa using hss

/-- Witness for the amended C3: a fault-free early-boot store succeeds, and a
faulted system-information read propagates the wrapped error. -/
theorem ensureValidUUID_read_error_propagation_witness :
    (ensureValidUUID noFaults ⟨none, none⟩ 3).result = .ok () ∧
    (ensureValidUUID ⟨none, some "io timeout", none⟩ ⟨none, some "whatever"⟩
        3).result
      = .error ("failed to get system information: " ++ "io timeout") :=
  ⟨(ensureValidUUID_read_error_propagation noFaults ⟨none, none⟩ 3).1
      rfl rfl rfl,
    (ensureValidUUID_read_error_propagation ⟨none, some "io timeout", none⟩
      ⟨none, some "whatever"⟩ 3).2 "io timeout" rfl (Or.inr (Or.inl rfl))⟩

/-- Outcome of the creation step as a function of the injected create fault:
a conflict (record already present, no fault) is swallowed with the store
intact; a faulted create propagates the wrapped error with the observed
current UUID. -/
theorem ensureCreateStep_createOutcome (f : CosiFaults) (s : CosiStore)
    (linodeID : Int) (so : Bool) (cu : String) :
    (f.create = none → s.uuidOverride.isSome →
      (ensureCreateStep f s linodeID so cu).result = .ok () ∧
      (ensureCreateStep f s linodeID so cu).store = s) ∧
    (∀ m, f.create = some m →
      (ensureCreateStep f s linodeID so cu).createAttempts ≠ [] →
      (ensureCreateStep f s linodeID so cu).result
        = .error (wrapCreateErr cu m) ∧
      (ensureCreateStep f s linodeID so cu).store = s) := by
  cases so with
  | false => constructor <;> simp [ensureCreateStep]
  | true =>
    by_cases hid : linodeID > 0
    · constructor
      · intro hc hov
        rcases Option.isSome_iff_exists.mp hov with ⟨w, hw⟩
        simp [ensureCreateStep, createUUIDOverride, hc, hw, hid,
          CosiError.isConflict]
      · intro m hc _
        simp [ensureCreateStep, createUUIDOverride, hc, hid,
          CosiError.isConflict, CosiError.text]
    · constructor <;> simp [ensureCreateStep, hid]

/-- The creation outcome lifted over the system-information step, with the
observed current UUID made explicit. -/
theorem ensureSystemInfoStep_createOutcome (f : CosiFaults) (s : CosiStore)
    (linodeID : Int)
    (hatt : (ensureSystemInfoStep f s linodeID).createAttempts ≠ []) :
    (f.create = none → s.uuidOverride.isSome →
      (ensureSystemInfoStep f s linodeID).result = .ok () ∧
      (ensureSystemInfoStep f s linodeID).store = s) ∧
    (∀ m, f.create = some m →
      (ensureSystemInfoStep f s linodeID).result
        = .error (wrapCreateErr (observedUUID f s) m) ∧
      (ensureSystemInfoStep f s linodeID).store = s) := by
  cases hrs : readSystemInfo f s with
  | ok u =>
    have hobs : observedUUID f s = u := by unfold observedUUID; rw [hrs]
    have hred : ensureSystemInfoStep f s linodeID
        = ensureCreateStep f s linodeID (isInvalidUUID u) u := by
      unfold ensureSystemInfoStep; rw [hrs]
    rw [hred] at hatt ⊢
    rw [hobs]
    exact ⟨(ensureCreateStep_createOutcome f s linodeID _ u).1,
      fun m hm => (ensureCreateStep_createOutcome f s linodeID _ u).2 m hm hatt⟩
  | error e =>
    cases he : e.isNotFound with
    | true =>
      have hobs : observedUUID f s = "not-available-yet" := by
        unfold observedUUID; rw [hrs]
      have hred : ensureSystemInfoStep f s linodeID
          = ensureCreateStep f s linodeID true "not-available-yet" := by
        unfold ensureSystemInfoStep; rw [hrs]; simp [he]
      rw [hred] at hatt ⊢
      rw [hobs]
      exact ⟨(ensureCreateStep_createOutcome f s linodeID true _).1,
        fun m hm =>
          (ensureCreateStep_createOutcome f s linodeID true _).2 m hm hatt⟩
    | false =>
      have hred : ensureSystemInfoStep f s linodeID
          = ⟨.error ("failed to get system information: " ++ e.text), s, []⟩ := by
        unfold ensureSystemInfoStep; rw [hrs]; simp [he]
      rw [hred] at hatt
      simp at hatt

/-- C4 (confirmed).  Conflict tolerance on create: whenever `ensureValidUUID`
attempts to create the override record, a conflicting create (no injected
fault, record already present) yields success with the previously committed
value left in place, while a create failing with any other error yields that
error wrapped together with the observed invalid current UUID, the store
unchanged. -/
theorem ensureValidUUID_create_conflict_tolerance (f : CosiFaults)
    (s : CosiStore) (linodeID : Int) (g : String)
    (hatt : (ensureValidUUID f s linodeID).createAttempts = [g]) :
    (f.create = none → s.uuidOverride.isSome →
      (ensureValidUUID f s linodeID).result = .ok () ∧
      (ensureValidUUID f s linodeID).store = s) ∧
    (∀ m, f.create = some m →
      (ensureValidUUID f s linodeID).result
        = .error (wrapCreateErr (observedUUID f s) m) ∧
      (ensureValidUUID f s linodeID).store = s) := by
  have hne : (ensureValidUUID f s linodeID).createAttempts ≠ [] := by
    rw [hatt]; simp
  cases hro : readOverride f s with
  | error e =>
    have hred : ensureValidUUID f s linodeID
        = ensureSystemInfoStep f s linodeID := by
      unfold ensureValidUUID; rw [hro]
    rw [hred] at hne ⊢
    exact ensureSystemInfoStep_createOutcome f s linodeID hne
  | ok v =>
    by_cases hv : v = ""
    · have hred : ensureValidUUID f s linodeID
          = ensureSystemInfoStep f s linodeID := by
        unfold ensureValidUUID; rw [hro]; simp [hv]
      rw [hred] at hne ⊢
      exact ensureSystemInfoStep_createOutcome f s linodeID hne
    · have hred : ensureValidUUID f s linodeID = ⟨.ok (), s, []⟩ := by
        unfold ensureValidUUID; rw [hro]; simp [hv]
      rw [hred] at hne
      simp at hne

/-- Witness for C4: a conflicting create (override-read fault hides the
existing record, the create then conflicts) is swallowed, and an injected
create fault propagates the wrapped error carrying the observed empty UUID. -/
theorem ensureValidUUID_create_conflict_tolerance_witness :
    ((ensureValidUUID ⟨some "readerr", none, none⟩ ⟨some "taken", some ""⟩
        5).result = .ok () ∧
      (ensureValidUUID ⟨some "readerr", none, none⟩ ⟨some "taken", some ""⟩
        5).store = ⟨some "taken", some ""⟩) ∧
    ((ensureValidUUID ⟨none, none, some "disk full"⟩ ⟨none, some ""⟩ 7).result
        = .error (wrapCreateErr "" "disk full") ∧
      (ensureValidUUID ⟨none, none, some "disk full"⟩ ⟨none, some ""⟩ 7).store
        = ⟨none, some ""⟩) :=
  ⟨(ensureValidUUID_create_conflict_tolerance ⟨some "readerr", none, none⟩
      ⟨some "taken", some ""⟩ 5 (generateLinodeUUID 5) rfl).1 rfl rfl,
    (ensureValidUUID_create_conflict_tolerance ⟨none, none, some "disk full"⟩
      ⟨none, some ""⟩ 7 (generateLinodeUUID 7) rfl).2 "disk full" rfl⟩

/-- C2 (confirmed).  Default IPv6 route derivation: when the hostname step
does not fail, then (a) if the first colon-delimited segment of the
link-local prefix's textual form followed by `::1` parses, `ParseMetadata`
succeeds and emits exactly one route — gateway the parsed address, out-link
`eth0`, destination the link-local prefix, main table, static protocol,
unicast type, IPv6 family, priority 1024, platform layer — normalised before
it is appended; and (b) if that derived string fails to parse,
`ParseMetadata` returns an error and no config. -/
theorem parseMetadata_ipv6_route (pf : String → Option HostnameSpecSpec)
    (pa : String → Option String) (nr : RouteSpecSpec → RouteSpecSpec)
    (md : InstanceData) (net : NetworkData)
    (hh : md.label = "" ∨ (pf md.label).isSome) :
    (∀ gw, pa (goSplitFirstColon net.ipv6LinkLocal.goString ++ "::1") = some gw →
      (ParseMetadata pf pa nr md net).map PlatformNetworkConfig.routes
        = .ok [nr
            { configLayer := .platform, gateway := gw,
              outLinkName := "eth0", destination := net.ipv6LinkLocal,
              table := .main, protocol := .static, kind := .unicast,
              family := .inet6, priority := 1024 }]) ∧
    (pa (goSplitFirstColon net.ipv6LinkLocal.goString ++ "::1") = none →
      ∃ e, ParseMetadata pf pa nr md net = .error e) := by
  constructor
  · intro gw hgw
    rcases hh with h | h
    · simp [ParseMetadata, Except.map, h, hgw]
    · rcases Option.isSome_iff_exists.mp h with ⟨hspec, hpf⟩
      by_cases hl : md.label = ""
      · simp [ParseMetadata, Except.map, hl, hgw]
      · simp [ParseMetadata, Except.map, hl, hpf, hgw]
  · intro hgw
    refine ⟨"ParseAddr: " ++ (goSplitFirstColon net.ipv6LinkLocal.goString
      ++ "::1"), ?_⟩
    rcases hh with h | h
    · simp [ParseMetadata, h, hgw]
    · rcases Option.isSome_iff_exists.mp h with ⟨hspec, hpf⟩
      by_cases hl : md.label = ""
      · simp [ParseMetadata, hl, hgw]
      · simp [ParseMetadata, hl, hpf, hgw]

/-- Witness for C2: translating the concrete network metadata with
link-local `fe80::1/64` derives the gateway `fe80::1` and emits exactly one
normalised route. -/
theorem parseMetadata_ipv6_route_witness :
    (ParseMetadata mockParseFQDN mockParseAddr mockNormalizeRoute mockInstance
        mockNetwork).map PlatformNetworkConfig.routes
      = .ok [mockNormalizeRoute
          { configLayer := .platform, gateway := "fe80::1",
            outLinkName := "eth0", destination := mockNetwork.ipv6LinkLocal,
            table := .main, protocol := .static, kind := .unicast,
            family := .inet6, priority := 1024 }] :=
  (parseMetadata_ipv6_route mockParseFQDN mockParseAddr mockNormalizeRoute
    mockInstance mockNetwork (Or.inl rfl)).1 "fe80::1" rfl

/-- C8 (confirmed).  Address-entry shapes: on every successful translation
the address list is exactly one global-scoped, permanent-flagged, IPv4 entry
on `eth0` per public and per private IPv4 prefix (public and private treated
identically), then one global-scoped, temporary-flagged IPv6 entry per IPv6
range, then exactly one link-scoped entry for the link-local prefix with no
flags. -/
theorem parseMetadata_address_entries (pf : String → Option HostnameSpecSpec)
    (pa : String → Option String) (nr : RouteSpecSpec → RouteSpecSpec)
    (md : InstanceData) (net : NetworkData)
    (hh : md.label = "" ∨ (pf md.label).isSome) (gw : String)
    (hgw : pa (goSplitFirstColon net.ipv6LinkLocal.goString ++ "::1")
      = some gw) :
    (ParseMetadata pf pa nr md net).map PlatformNetworkConfig.addresses
      = .ok
          ((net.ipv4Public ++ net.ipv4Private).map (fun iface =>
            { configLayer := .platform, linkName := "eth0", address := iface,
              scope := .global, flags := [.permanent], family := .inet4 })
          ++ net.ipv6Ranges.map (fun iface =>
            { configLayer := .platform, linkName := "eth0", address := iface,
              scope := .global, flags := [.managementTemp], family := .inet6 })
          ++ [{ configLayer := .platform, linkName := "eth0",
                address := net.ipv6LinkLocal, scope := .link, flags := [],
                family := .inet6 }]) := by
  rcases hh with h | h
  · simp [ParseMetadata, Except.map, h, hgw]
  · rcases Option.isSome_iff_exists.mp h with ⟨hspec, hpf⟩
    by_cases hl : md.label = ""
    · simp [ParseMetadata, Except.map, hl, hgw]
    · simp [ParseMetadata, Except.map, hl, hpf, hgw]

/-- Witness for C8: the concrete network metadata yields the expected
evaluated address list (two public entries, one private, one range, one
link-local). -/
theorem parseMetadata_address_entries_witness :
    (ParseMetadata mockParseFQDN mockParseAddr mockNormalizeRoute mockInstance
        mockNetwork).map PlatformNetworkConfig.addresses
      = .ok
          ((mockNetwork.ipv4Public ++ mockNetwork.ipv4Private).map (fun iface =>
            { configLayer := .platform, linkName := "eth0", address := iface,
              scope := .global, flags := [.permanent], family := .inet4 })
          ++ mockNetwork.ipv6Ranges.map (fun iface =>
            { configLayer := .platform, linkName := "eth0", address := iface,
              scope := .global, flags := [.managementTemp], family := .inet6 })
          ++ [{ configLayer := .platform, linkName := "eth0",
                address := mockNetwork.ipv6LinkLocal, scope := .link,
                flags := [], family := .inet6 }]) :=
  parseMetadata_address_entries mockParseFQDN mockParseAddr mockNormalizeRoute
    mockInstance mockNetwork (Or.inl rfl) "fe80::1" rfl

/-- C9 (confirmed).  External-IP list: on every successful translation the
external-IP list is the bare addresses of the public IPv4 prefixes, in
order, followed by those of the IPv6 ranges, re-parsed with the address
parser and silently dropping the ones that fail to parse; private IPv4 and
link-local addresses never contribute. -/
theorem parseMetadata_external_ips (pf : String → Option HostnameSpecSpec)
    (pa : String → Option String) (nr : RouteSpecSpec → RouteSpecSpec)
    (md : InstanceData) (net : NetworkData)
    (hh : md.label = "" ∨ (pf md.label).isSome) (gw : String)
    (hgw : pa (goSplitFirstColon net.ipv6LinkLocal.goString ++ "::1")
      = some gw) :
    (ParseMetadata pf pa nr md net).map PlatformNetworkConfig.externalIPs
      = .ok ((net.ipv4Public.map Cidr.addr
          ++ net.ipv6Ranges.map Cidr.addr).filterMap pa) := by
  rcases hh with h | h
  · simp [ParseMetadata, Except.map, h, hgw, Function.comp]
  · rcases Option.isSome_iff_exists.mp h with ⟨hspec, hpf⟩
    by_cases hl : md.label = ""
    · simp [ParseMetadata, Except.map, hl, hgw, Function.comp]
    · simp [ParseMetadata, Except.map, hl, hpf, hgw, Function.comp]

/-- Witness for C9: with the concrete metadata the unparseable public
address `bogus` is silently skipped, the private address is excluded, and
the list is the public IPv4 address followed by the IPv6 range address. -/
theorem parseMetadata_external_ips_witness :
    (ParseMetadata mockParseFQDN mockParseAddr mockNormalizeRoute mockInstance
        mockNetwork).map PlatformNetworkConfig.externalIPs
      = .ok ["172.16.1.1", "2001:db8::1"] :=
  parseMetadata_external_ips mockParseFQDN mockParseAddr mockNormalizeRoute
    mockInstance mockNetwork (Or.inl rfl) "fe80::1" rfl
